import Mathlib

/-!
Shallow embedding of the tag-normalization and geolocation-resolution engine
of the Image-Metadata-Viewer repository (source file src/utils/exifUtils.ts).

Modelling conventions:
* JavaScript values flowing through the tag bag are modelled by the inductive
  type `JVal` (strings, numbers, arrays, objects).  `undefined` is modelled by
  `Option JVal` with `none` for `undefined`.
* JavaScript numbers are modelled as exact rationals.  `NaN` is modelled as
  `none` in `Option ℚ` at the points where the source can produce `NaN`
  (`parseFloat`, `parseInt`, coordinate conversion).  Infinite values
  (overflow, the literal string "Infinity") are outside the model.
* `parseFloat`, `parseInt`, `String(...)`, truthiness, `||` and the regular
  expressions of the source are each given explicit executable models below;
  every definition follows the corresponding code in exifUtils.ts.
-/

mutual

/-- A JavaScript value as it occurs in an ExifReader tag bag: a string, a
number, an array, or a plain object.  Arrays and objects are spelled as the
mutually inductive `JArr`/`JObj` so that every function on them is
structurally recursive and fully evaluable. -/
inductive JVal where
  | str (s : String)
  | num (q : ℚ)
  | arr (elems : JArr)
  | obj (fields : JObj)

inductive JArr where
  | nil
  | cons (head : JVal) (tail : JArr)

inductive JObj where
  | nil
  | cons (key : String) (val : JVal) (tail : JObj)

end

/-- Build an object spine from an association list. -/
def JObj.ofList : List (String × JVal) → JObj
  | [] => .nil
  | (k, v) :: t => .cons k v (JObj.ofList t)

/-- Build an array spine from a list. -/
def JArr.ofList : List JVal → JArr
  | [] => .nil
  | v :: t => .cons v (JArr.ofList t)

/-- The elements of an array spine. -/
def JArr.toList : JArr → List JVal
  | .nil => []
  | .cons v t => v :: JArr.toList t

/-- First binding of a key in an object, as JavaScript property lookup. -/
def JObj.find : JObj → String → Option JVal
  | .nil, _ => none
  | .cons k v t, key => if k == key then some v else JObj.find t key

/-- Whether an object has no own keys (`Object.keys(o).length === 0`). -/
def JObj.isEmpty : JObj → Bool
  | .nil => true
  | .cons _ _ _ => false

/-- Property access `v[key]`: `some` for a present object field, `none` for
`undefined` (including access on strings, numbers and arrays). -/
def getField (v : JVal) (key : String) : Option JVal :=
  match v with
  | .obj fields => fields.find key
  | _ => none

/-- JavaScript truthiness of a defined value: empty strings and the number 0
are falsy; arrays and objects are always truthy. -/
def truthy (v : JVal) : Bool :=
  match v with
  | .str s => !s.isEmpty
  | .num q => decide (q ≠ 0)
  | .arr _ => true
  | .obj _ => true

/-- Truthiness of a possibly-undefined value (`undefined` is falsy). -/
def truthyO (v : Option JVal) : Bool :=
  match v with
  | some w => truthy w
  | none => false

/-- JavaScript `x || y` on possibly-undefined values: `x` when truthy,
otherwise `y`. -/
def jsOr (x y : Option JVal) : Option JVal :=
  match x with
  | some v => if truthy v then some v else y
  | none => y

/-- JavaScript `x || d` with a defined default. -/
def jsOrDefault (x : Option JVal) (d : JVal) : JVal :=
  match x with
  | some v => if truthy v then v else d
  | none => d

/-- Strict equality `v === lit` of a value against a string literal. -/
def jvalIsStr (v : JVal) (lit : String) : Bool :=
  match v with
  | .str s => s == lit
  | _ => false

/-- Whitespace as skipped by `parseFloat`/`parseInt` and matched by the `\s`
regex class (the common ASCII whitespace characters). -/
def jsWhitespace (c : Char) : Bool :=
  c == ' ' || c == '\t' || c == '\n' || c == '\r' || c == '\x0b' || c == '\x0c'

/-- Numeric value of a list of decimal digit characters. -/
def natFromDigits (ds : List Char) : ℕ :=
  ds.foldl (fun a c => a * 10 + (c.toNat - 48)) 0

/-- Hexadecimal digit test (for `parseInt` with a `0x` prefix). -/
def isHexDigit (c : Char) : Bool :=
  c.isDigit || ('a' ≤ c && c ≤ 'f') || ('A' ≤ c && c ≤ 'F')

/-- Numeric value of a list of hexadecimal digit characters. -/
def hexFromDigits (ds : List Char) : ℕ :=
  ds.foldl (fun a c =>
    a * 16 + (if c.isDigit then c.toNat - 48
              else if 'a' ≤ c && c ≤ 'f' then c.toNat - 87
              else c.toNat - 55)) 0

/-- An optional leading sign, for `parseFloat`. -/
def readSign (l : List Char) : ℚ × List Char :=
  match l with
  | c :: rest => if c = '-' then (-1, rest) else if c = '+' then (1, rest) else (1, c :: rest)
  | [] => (1, [])

/-- An optional leading sign, for `parseInt`. -/
def readSignInt (l : List Char) : ℤ × List Char :=
  match l with
  | c :: rest => if c = '-' then (-1, rest) else if c = '+' then (1, rest) else (1, c :: rest)
  | [] => (1, [])

/-- `10 ^ e` for an integer exponent. -/
def tenPow (e : ℤ) : ℚ :=
  if 0 ≤ e then ((10 : ℚ)) ^ e.toNat else 1 / ((10 : ℚ)) ^ (-e).toNat

/-- The optional exponent suffix accepted by `parseFloat` (`e`/`E`, optional
sign, digits); a malformed exponent contributes nothing, as in JavaScript. -/
def readExpPart (l : List Char) : ℤ :=
  match l with
  | 'e' :: rest => readExpBody rest
  | 'E' :: rest => readExpBody rest
  | _ => 0
where
  readExpBody (l : List Char) : ℤ :=
    let (sgn, l') : ℤ × List Char :=
      match l with
      | '-' :: r => (-1, r)
      | '+' :: r => (1, r)
      | _ => (1, l)
    let ds := l'.takeWhile Char.isDigit
    if ds.isEmpty then 0 else sgn * (natFromDigits ds : ℤ)

/-- Model of JavaScript `parseFloat`: skip leading whitespace, optional sign,
decimal digits with an optional fractional part and exponent; `none` models
`NaN` (no digit could be consumed). -/
def parseFloatJS (s : String) : Option ℚ :=
  let cs := s.data.dropWhile jsWhitespace
  let (sgn, cs1) := readSign cs
  let ip := cs1.takeWhile Char.isDigit
  let cs2 := cs1.dropWhile Char.isDigit
  let (fp, cs3) :=
    match cs2 with
    | c :: rest =>
      if c = '.' then (rest.takeWhile Char.isDigit, rest.dropWhile Char.isDigit)
      else (([] : List Char), c :: rest)
    | [] => (([] : List Char), ([] : List Char))
  if ip.isEmpty && fp.isEmpty then none
  else
    let mant : ℚ := (natFromDigits ip : ℚ) + (natFromDigits fp : ℚ) / (10 : ℚ) ^ fp.length
    some (sgn * mant * tenPow (readExpPart cs3))

/-- The decimal branch of `parseInt`. -/
def parseIntDec (sgn : ℤ) (cs : List Char) : Option ℤ :=
  let ds := cs.takeWhile Char.isDigit
  if ds.isEmpty then none else some (sgn * (natFromDigits ds : ℤ))

/-- Model of JavaScript `parseInt` with no radix argument: skip leading
whitespace, optional sign, then either a `0x`/`0X` hexadecimal literal or
decimal digits; `none` models `NaN`. -/
def parseIntJS (s : String) : Option ℤ :=
  let cs := s.data.dropWhile jsWhitespace
  let (sgn, cs1) := readSignInt cs
  match cs1 with
  | c :: x :: rest =>
    if c == '0' && (x == 'x' || x == 'X') then
      let hs := rest.takeWhile isHexDigit
      if hs.isEmpty then none else some (sgn * (hexFromDigits hs : ℤ))
    else parseIntDec sgn cs1
  | _ => parseIntDec sgn cs1

/-- The first match of the regex `(\d+)`: the first maximal run of decimal
digits in the string, or `none` when the string contains no digit. -/
def digitRun (s : String) : Option String :=
  let cs := s.data.dropWhile (fun c => !c.isDigit)
  match cs with
  | [] => none
  | _ => some (String.mk (cs.takeWhile Char.isDigit))

/-- Decimal digits of the fractional part of `r / d`, by long division,
capped at `fuel` digits (covers every terminating decimal that occurs in
tag data). -/
def fracDigits (fuel : ℕ) (r d : ℕ) : List Char :=
  match fuel with
  | 0 => []
  | fuel' + 1 =>
    if r = 0 then []
    else (Nat.digitChar (r * 10 / d)) :: fracDigits fuel' (r * 10 % d) d

/-- Model of JavaScript number-to-string conversion `String(n)` for the exact
rationals of this model: sign, integer part, and the terminating decimal
expansion of the fractional part. -/
def numToString (q : ℚ) : String :=
  let sgn := if q < 0 then "-" else ""
  let a := q.num.natAbs
  let d := q.den
  let ip := a / d
  let r := a % d
  let fp := fracDigits 30 r d
  sgn ++ toString ip ++ (if fp.isEmpty then "" else "." ++ String.mk fp)

mutual

/-- Model of JavaScript `String(v)`: strings unchanged, numbers in decimal,
arrays joined with commas, plain objects as "[object Object]". -/
def jvalToString : JVal → String
  | .str s => s
  | .num q => numToString q
  | .obj _ => "[object Object]"
  | .arr xs => String.intercalate "," (jarrStrings xs)

/-- The element strings of an array, for `String(v)` on arrays. -/
def jarrStrings : JArr → List String
  | .nil => []
  | .cons v t => jvalToString v :: jarrStrings t

end

/-- `parseFloat(v)` applied to a defined JavaScript value: the argument is
coerced to a string first. -/
def parseFloatJV (v : JVal) : Option ℚ :=
  parseFloatJS (jvalToString v)

/-- `parseFloat(v)` applied to a possibly-undefined value:
`parseFloat(undefined)` is `NaN`. -/
def parseFloatArg (v : Option JVal) : Option ℚ :=
  match v with
  | some w => parseFloatJV w
  | none => none

/-- Lower-casing as done by `toLowerCase()` (ASCII letters). -/
def strToLower (s : String) : String :=
  String.mk (s.data.map Char.toLower)

/-- Model of JavaScript `s.includes(pat)`. -/
def strIncludes (s pat : String) : Bool :=
  pat.isEmpty || (s.splitOn pat).length != 1

/-- `Math.round`: round half toward positive infinity. -/
def jsRound (q : ℚ) : ℤ :=
  Rat.floor (q + 1 / 2)

/-- Consume the regex fragment `\d+(?:\.\d+)?` at the head of the input:
one or more digits, optionally followed by a point and one or more digits.
Returns the parsed value and the rest of the input. -/
def matchNumber (l : List Char) : Option (ℚ × List Char) :=
  let ds := l.takeWhile Char.isDigit
  if ds.isEmpty then none
  else
    let rest := l.dropWhile Char.isDigit
    match rest with
    | '.' :: r2 =>
      let fs := r2.takeWhile Char.isDigit
      if fs.isEmpty then some ((natFromDigits ds : ℚ), rest)
      else some ((natFromDigits ds : ℚ) + (natFromDigits fs : ℚ) / (10 : ℚ) ^ fs.length,
                 r2.dropWhile Char.isDigit)
    | _ => some ((natFromDigits ds : ℚ), rest)

/-- Consume one character from a character class (e.g. `['′]`). -/
def expectOne (cl : List Char) (l : List Char) : Option (List Char) :=
  match l with
  | c :: rest => if cl.contains c then some rest else none
  | [] => none

/-- Consume a literal string (e.g. `deg`). -/
def expectStr (pat : List Char) (l : List Char) : Option (List Char) :=
  match pat, l with
  | [], rest => some rest
  | p :: ps, c :: rest => if c == p then expectStr ps rest else none
  | _ :: _, [] => none

/-- Skip `\s*`. -/
def skipJsWs (l : List Char) : List Char :=
  l.dropWhile jsWhitespace

/-- Attempt the regex `(\d+(?:\.\d+)?)°\s*(\d+(?:\.\d+)?)['′]\s*(\d+(?:\.\d+)?)["″]`
anchored at the head of the input (pattern 1 of convertCoordinates). -/
def tryDMS1At (l : List Char) : Option (ℚ × ℚ × ℚ) :=
  match matchNumber l with
  | none => none
  | some (d, r1) =>
    match expectOne ['°'] r1 with
    | none => none
    | some r2 =>
      match matchNumber (skipJsWs r2) with
      | none => none
      | some (m, r3) =>
        match expectOne ['\'', '′'] r3 with
        | none => none
        | some r4 =>
          match matchNumber (skipJsWs r4) with
          | none => none
          | some (s, r5) =>
            match expectOne ['"', '″'] r5 with
            | none => none
            | some _ => some (d, m, s)

/-- Attempt the regex `(\d+(?:\.\d+)?)\s*deg\s*(\d+(?:\.\d+)?)['′]\s*(\d+(?:\.\d+)?)["″]`
anchored at the head of the input (pattern 2 of convertCoordinates). -/
def tryDMS2At (l : List Char) : Option (ℚ × ℚ × ℚ) :=
  match matchNumber l with
  | none => none
  | some (d, r1) =>
    match expectStr ['d', 'e', 'g'] (skipJsWs r1) with
    | none => none
    | some r2 =>
      match matchNumber (skipJsWs r2) with
      | none => none
      | some (m, r3) =>
        match expectOne ['\'', '′'] r3 with
        | none => none
        | some r4 =>
          match matchNumber (skipJsWs r4) with
          | none => none
          | some (s, r5) =>
            match expectOne ['"', '″'] r5 with
            | none => none
            | some _ => some (d, m, s)

/-- Unanchored regex search: try the anchored pattern at every start
position from left to right, as `String.prototype.match` does. -/
def scanDMS (tryAt : List Char → Option (ℚ × ℚ × ℚ)) : List Char → Option (ℚ × ℚ × ℚ)
  | [] => none
  | c :: rest =>
    match tryAt (c :: rest) with
    | some r => some r
    | none => scanDMS tryAt rest

/-- Characters kept by the split `coordStr.split(/[^\d\.\-]+/)`: digits,
point, minus. -/
def isCoordChar (c : Char) : Bool :=
  c.isDigit || c == '.' || c == '-'

/-- Split into maximal runs of coordinate characters, dropping the empty
pieces (models `split(/[^\d\.\-]+/).filter(part => part !== '')`). -/
def splitRunsAux : List Char → List Char → List String
  | [], acc => if acc.isEmpty then [] else [String.mk acc.reverse]
  | c :: rest, acc =>
    if isCoordChar c then splitRunsAux rest (c :: acc)
    else if acc.isEmpty then splitRunsAux rest []
    else String.mk acc.reverse :: splitRunsAux rest []

/-- The non-empty coordinate-character runs of a string. -/
def splitRuns (s : String) : List String :=
  splitRunsAux s.data []

/-- NaN-propagating addition on optional rationals. -/
def optAdd (a b : Option ℚ) : Option ℚ :=
  match a, b with
  | some x, some y => some (x + y)
  | _, _ => none

/-- convertCoordinates (exifUtils.ts): convert a coordinate string to a
decimal value.  `none` models a `NaN` result. -/
def convertCoordinates (coordStr : String) : Option ℚ :=
  if coordStr.isEmpty then some 0
  else
    match parseFloatJS coordStr with
    | some q => some q
    | none =>
      match scanDMS tryDMS1At coordStr.data with
      | some (d, m, s) => some (d + m / 60 + s / 3600)
      | none =>
        match scanDMS tryDMS2At coordStr.data with
        | some (d, m, s) => some (d + m / 60 + s / 3600)
        | none =>
          match splitRuns coordStr with
          | [] => some 0
          | p0 :: rest =>
            let d0 := parseFloatJS p0
            let d1 :=
              match rest with
              | p1 :: _ => optAdd d0 ((parseFloatJS p1).map (fun x => x / 60))
              | [] => d0
            match rest with
            | _ :: p2 :: _ => optAdd d1 ((parseFloatJS p2).map (fun x => x / 3600))
            | _ => d1

/-- One element of a coordinate array, converted to a number as in
processCoordinateArray: numbers kept, strings parsed, objects through their
`value` field, anything else 0.  `none` models `NaN`. -/
def coordElemToNum (v : JVal) : Option ℚ :=
  match v with
  | .num q => some q
  | .str s => parseFloatJS s
  | _ =>
    match getField v "value" with
    | some (.num q) => some q
    | some (.str s) => parseFloatJS s
    | _ => some 0

/-- processCoordinateArray (exifUtils.ts): interpret an array as
degrees/minutes/seconds according to its length. -/
def processCoordinateArray (coordArray : List JVal) : Option ℚ :=
  if coordArray.length < 1 then some 0
  else
    match coordArray.map coordElemToNum with
    | a :: b :: c :: _ => optAdd (optAdd a (b.map (fun x => x / 60))) (c.map (fun x => x / 3600))
    | [a, b] => optAdd a (b.map (fun x => x / 60))
    | [a] => a
    | [] => some 0

/-- processGpsValue (exifUtils.ts): handle objects carrying a `value` field,
direct arrays, direct numbers and direct strings; anything else is 0. -/
def processGpsValue (gpsData : JVal) : Option ℚ :=
  if !truthy gpsData then some 0
  else
    let viaValue : Option (Option ℚ) :=
      match getField gpsData "value" with
      | some (.arr xs) => some (processCoordinateArray xs.toList)
      | some (.num q) => some (some q)
      | some (.str s) => some (convertCoordinates s)
      | some (.obj _) => none
      | none => none
    match viaValue with
    | some r => r
    | none =>
      match gpsData with
      | .arr xs => processCoordinateArray xs.toList
      | .num q => some q
      | .str s => convertCoordinates s
      | _ => some 0

/-- A resolved GPS coordinate pair, as returned by findGpsData. -/
structure GpsCoord where
  latitude : ℚ
  longitude : ℚ

/-- isValidCoordinate (exifUtils.ts): range check plus rejection of the
(0,0) sentinel.  The `isNaN` guard of the source is handled at the call
sites by the `Option ℚ` representation of NaN. -/
def isValidCoordinate (latitude longitude : ℚ) : Bool :=
  if latitude < -90 ∨ latitude > 90 then false
  else if longitude < -180 ∨ longitude > 180 then false
  else if latitude = 0 ∧ longitude = 0 then false
  else true

/-- The shared accept step of findGpsData steps 5 and 6: return the pair
only when both components are numbers (not NaN) and isValidCoordinate
holds; otherwise fall through. -/
def acceptIfValid (lat lon : Option ℚ) : Option GpsCoord :=
  match lat, lon with
  | some a, some b => if isValidCoordinate a b then some ⟨a, b⟩ else none
  | _, _ => none

/-- getGpsCoordinate (exifUtils.ts), the per-key extraction: description
first (when truthy), then the raw `value` field, then a direct array,
number or string. -/
def gpsCoordAt (t : JVal) : Option JVal :=
  if truthy t then
    match getField t "description" with
    | some d => if truthy d then some d else gpsCoordVal t
    | none => gpsCoordVal t
  else none
where
  gpsCoordVal (t : JVal) : Option JVal :=
    match getField t "value" with
    | some v => some v
    | none =>
      match t with
      | .arr _ => some t
      | .num _ => some t
      | .str _ => some t
      | _ => none

/-- getGpsCoordinate (exifUtils.ts): first key whose extraction succeeds. -/
def getGpsCoordinate (o : JVal) (possibleKeys : List String) : Option JVal :=
  match possibleKeys with
  | [] => none
  | k :: ks =>
    match getField o k with
    | some t =>
      match gpsCoordAt t with
      | some r => some r
      | none => getGpsCoordinate o ks
    | none => getGpsCoordinate o ks

/-- getGpsRef (exifUtils.ts), per-key: description first (when truthy), then
a direct string, then the raw `value` field. -/
def gpsRefAt (t : JVal) : Option JVal :=
  if truthy t then
    match getField t "description" with
    | some d => if truthy d then some d else gpsRefTail t
    | none => gpsRefTail t
  else none
where
  gpsRefTail (t : JVal) : Option JVal :=
    match t with
    | .str _ => some t
    | _ => getField t "value"

/-- getGpsRef (exifUtils.ts): first key whose extraction succeeds. -/
def getGpsRef (o : JVal) (possibleKeys : List String) : Option JVal :=
  match possibleKeys with
  | [] => none
  | k :: ks =>
    match getField o k with
    | some t =>
      match gpsRefAt t with
      | some r => some r
      | none => getGpsRef o ks
    | none => getGpsRef o ks

/-- Vendor `Location` block attempt (steps 1-3 of findGpsData):
`parseFloat(loc.Latitude?.value || loc.Latitude)` and the same for
longitude, accepted when both parse (`!isNaN`).  No range check. -/
def locAttempt (loc : JVal) : Option GpsCoord :=
  let la := parseFloatArg
    (jsOr ((getField loc "Latitude").bind (fun l => getField l "value")) (getField loc "Latitude"))
  let lo := parseFloatArg
    (jsOr ((getField loc "Longitude").bind (fun l => getField l "value")) (getField loc "Longitude"))
  match la, lo with
  | some a, some b => some ⟨a, b⟩
  | _, _ => none

/-- `if (tags[vendor] && tags[vendor].Location)` followed by `locAttempt`. -/
def vendorLocation (tags : JVal) (vendor : String) : Option GpsCoord :=
  match getField tags vendor with
  | some mv =>
    if truthy mv then
      match getField mv "Location" with
      | some loc => if truthy loc then locAttempt loc else none
      | none => none
    else none
  | none => none

/-- The Android manufacturer list of findGpsData step 2. -/
def androidManufacturers : List String :=
  ["samsung", "google", "huawei", "xiaomi", "oppo", "vivo", "oneplus", "asus"]

/-- First success in a list of optional results. -/
def firstSome {α : Type} : List (Option α) → Option α
  | [] => none
  | some r :: _ => some r
  | none :: rest => firstSome rest

/-- Steps 1-3 of findGpsData: the Apple location block, the Android vendor
location blocks, then the XMP location block. -/
def gpsVendorXmp (tags : JVal) : Option GpsCoord :=
  firstSome
    (vendorLocation tags "apple" ::
      (androidManufacturers.map (vendorLocation tags) ++ [vendorLocation tags "xmp"]))

/-- `tags[key] && tags[key].value === lit` for the GPS reference tags of
findGpsData step 4. -/
def gpsStdRefIs (tags : JVal) (key lit : String) : Bool :=
  match getField tags key with
  | some r =>
    truthy r &&
      (match getField r "value" with
       | some v => jvalIsStr v lit
       | none => false)
  | none => false

/-- Step 4 of findGpsData: direct root-level GPSLatitude/GPSLongitude tags,
converted by processGpsValue, with the reference letters applied by plain
negation, accepted when both are numbers (`!isNaN`).  No range check. -/
def gpsDirectTags (tags : JVal) : Option GpsCoord :=
  match getField tags "GPSLatitude", getField tags "GPSLongitude" with
  | some glat, some glon =>
    if truthy glat && truthy glon then
      let lat0 := processGpsValue glat
      let lon0 := processGpsValue glon
      let lat := if gpsStdRefIs tags "GPSLatitudeRef" "S" then lat0.map (fun x => -x) else lat0
      let lon := if gpsStdRefIs tags "GPSLongitudeRef" "W" then lon0.map (fun x => -x) else lon0
      match lat, lon with
      | some a, some b => some ⟨a, b⟩
      | _, _ => none
    else none
  | _, _ => none

/-- The latitude key synonyms of findGpsData step 5. -/
def gpsLatKeys : List String :=
  ["GPSLatitude", "Latitude", "GpsLatitude", "Lat", "LatitudeValue", "lat"]

/-- The longitude key synonyms of findGpsData step 5. -/
def gpsLonKeys : List String :=
  ["GPSLongitude", "Longitude", "GpsLongitude", "Lon", "LongitudeValue", "lng", "lon"]

/-- The latitude reference key synonyms of findGpsData step 5. -/
def gpsLatRefKeys : List String :=
  ["GPSLatitudeRef", "LatitudeRef", "GpsLatitudeRef", "LatRef", "latRef"]

/-- The longitude reference key synonyms of findGpsData step 5. -/
def gpsLonRefKeys : List String :=
  ["GPSLongitudeRef", "LongitudeRef", "GpsLongitudeRef", "LonRef", "lngRef", "lonRef"]

/-- One candidate GPS container of findGpsData step 5: resolve lat/lon and
the reference letters, dispatch on the value types, apply the references by
`-Math.abs`, and accept only through isValidCoordinate. -/
def gpsObjAttempt (g : JVal) : Option GpsCoord :=
  match getGpsCoordinate g gpsLatKeys, getGpsCoordinate g gpsLonKeys with
  | some lv, some nv =>
    match (match lv, nv with
           | .num a, .num b => some (some a, some b)
           | .str a, .str b => some (convertCoordinates a, convertCoordinates b)
           | .arr a, .arr b => some (processCoordinateArray a.toList, processCoordinateArray b.toList)
           | _, _ => (none : Option (Option ℚ × Option ℚ))) with
    | none => none
    | some (lat0, lon0) =>
      acceptIfValid
        (if jvalIsStr (jsOrDefault (getGpsRef g gpsLatRefKeys) (.str "N")) "S"
         then lat0.map (fun x => -|x|) else lat0)
        (if jvalIsStr (jsOrDefault (getGpsRef g gpsLonRefKeys) (.str "E")) "W"
         then lon0.map (fun x => -|x|) else lon0)
  | _, _ => none

/-- The candidate GPS containers of findGpsData step 5: the fixed container
keys (filtered for truthiness), plus the root object itself when a root
latitude tag is present. -/
def gpsObjectsList (tags : JVal) : List JVal :=
  let base := [getField tags "GPS", getField tags "gps", getField tags "GPSInfo",
               getField tags "GPS Info",
               (getField tags "exif").bind (fun e => getField e "GPS"),
               (getField tags "xmp").bind (fun x => getField x "GPS")]
  let objs := (base.filterMap id).filter truthy
  if truthyO (getField tags "GPSLatitude") || truthyO (getField tags "GpsLatitude") ||
     truthyO (getField tags "Latitude")
  then objs ++ [tags] else objs

/-- Step 5 of findGpsData: first container whose attempt passes the
validity gate. -/
def gpsObjectsScan (tags : JVal) : Option GpsCoord :=
  firstSome ((gpsObjectsList tags).map gpsObjAttempt)

/-- Step 6 of findGpsData: `tags.Location || tags.location || tags.LocationIQ`
holding a `coordinates` array in GeoJSON order (index 0 longitude, index 1
latitude), accepted only through isValidCoordinate. -/
def gpsLocationArray (tags : JVal) : Option GpsCoord :=
  match jsOr (jsOr (getField tags "Location") (getField tags "location"))
        (getField tags "LocationIQ") with
  | some l =>
    if truthy l then
      match getField l "coordinates" with
      | some co =>
        if truthy co then
          match jsOrDefault (getField co "value") co with
          | .arr xs =>
            if xs.toList.length ≥ 2 then
              acceptIfValid (parseFloatArg (xs.toList.get? 1)) (parseFloatArg (xs.toList.get? 0))
            else none
          | _ => none
        else none
      | none => none
    else none
  | none => none

/-- findGpsData (exifUtils.ts): the full strategy chain, first hit wins. -/
def findGpsData (tags : JVal) : Option GpsCoord :=
  match gpsVendorXmp tags with
  | some c => some c
  | none =>
    match gpsDirectTags tags with
    | some c => some c
    | none =>
      match gpsObjectsScan tags with
      | some c => some c
      | none => gpsLocationArray tags

/-- The per-key extraction shared by findValue and searchInNestedPaths:
require a truthy tag, prefer a truthy `description`, else a present `value`
(stringified), else a direct string or number scalar (stringified). -/
def extractAt (t : JVal) : Option JVal :=
  if truthy t then
    match getField t "description" with
    | some d => if truthy d then some d else extractVal t
    | none => extractVal t
  else none
where
  extractVal (t : JVal) : Option JVal :=
    match getField t "value" with
    | some v => some (.str (jvalToString v))
    | none =>
      match t with
      | .str s => some (.str s)
      | .num q => some (.str (numToString q))
      | _ => none

/-- Scan candidate keys in order on one object, first hit wins. -/
def scanKeys (o : JVal) (possibleKeys : List String) : Option JVal :=
  match possibleKeys with
  | [] => none
  | k :: ks =>
    match getField o k with
    | some t =>
      match extractAt t with
      | some r => some r
      | none => scanKeys o ks
    | none => scanKeys o ks

/-- The fixed list of vendor/standard sub-namespaces searched by findValue. -/
def subObjects : List String :=
  ["xmp", "exif", "gps", "GPS", "ifd0", "ifd1", "apple", "samsung",
   "canon", "nikon", "olympus", "panasonic", "sony", "fujifilm",
   "google", "huawei", "xiaomi", "oppo", "vivo", "oneplus", "asus"]

/-- Scan the candidate keys inside each present (truthy) sub-namespace. -/
def scanSubObjects (tags : JVal) (possibleKeys : List String) : List String → Option JVal
  | [] => none
  | so :: rest =>
    match getField tags so with
    | some sv =>
      if truthy sv then
        match scanKeys sv possibleKeys with
        | some r => some r
        | none => scanSubObjects tags possibleKeys rest
      else scanSubObjects tags possibleKeys rest
    | none => scanSubObjects tags possibleKeys rest

/-- The fixed list of deeply nested device paths of searchInNestedPaths. -/
def devicePaths : List String :=
  ["MakerNote.Apple", "MakerNotes.Apple", "apple.tags", "Apple",
   "MakerNote.Samsung", "MakerNotes.Samsung", "samsung.tags", "Samsung",
   "MakerNote.Huawei", "MakerNotes.Huawei", "huawei.tags", "Huawei",
   "MakerNote.Sony", "MakerNotes.Sony", "sony.tags", "Sony",
   "MakerNote.Google", "MakerNotes.Google", "google.tags", "Google",
   "MakerNote.Xiaomi", "MakerNotes.Xiaomi", "xiaomi.tags", "Xiaomi",
   "MakerNote.Oppo", "MakerNotes.Oppo", "oppo.tags", "Oppo",
   "MakerNote.Vivo", "MakerNotes.Vivo", "vivo.tags", "Vivo",
   "MakerNote.OnePlus", "MakerNotes.OnePlus", "oneplus.tags", "OnePlus",
   "MakerNote.Asus", "MakerNotes.Asus", "asus.tags", "Asus",
   "iphoneinfo", "androidinfo", "pixelinfo", "iOS", "Android"]

/-- Walk a dotted path segment by segment, failing on a missing or falsy
intermediate value. -/
def walkPath (v : JVal) : List String → Option JVal
  | [] => some v
  | p :: ps =>
    match getField v p with
    | some c => if truthy c then walkPath c ps else none
    | none => none

/-- searchInNestedPaths (exifUtils.ts): walk each device path and scan the
candidate keys at the reached object. -/
def searchInNestedPaths (tags : JVal) (possibleKeys : List String) : Option JVal :=
  searchPathsGo tags possibleKeys devicePaths
where
  searchPathsGo (tags : JVal) (possibleKeys : List String) : List String → Option JVal
    | [] => none
    | path :: rest =>
      match walkPath tags (path.splitOn ".") with
      | some cur =>
        match scanKeys cur possibleKeys with
        | some r => some r
        | none => searchPathsGo tags possibleKeys rest
      | none => searchPathsGo tags possibleKeys rest

/-- findValue (exifUtils.ts): root scan, then the sub-namespace scan.  The
source then calls searchInNestedPaths but discards its result and returns
undefined, and this model reproduces that behaviour exactly. -/
def findValue (tags : JVal) (possibleKeys : List String) : Option JVal :=
  if !truthy tags then none
  else
    match scanKeys tags possibleKeys with
    | some r => some r
    | none =>
      match scanSubObjects tags possibleKeys subObjects with
      | some r => some r
      | none =>
        let _ := searchInNestedPaths tags possibleKeys
        none

/-- Consume the regex fragment `\d+\.?\d*` at the head of the input (one or
more digits, an optional point, then any digits), returning the matched
characters and the rest. -/
def matchNumLoose (l : List Char) : Option (List Char × List Char) :=
  let ds := l.takeWhile Char.isDigit
  if ds.isEmpty then none
  else
    let rest := l.dropWhile Char.isDigit
    match rest with
    | '.' :: r2 => some (ds ++ '.' :: r2.takeWhile Char.isDigit, r2.dropWhile Char.isDigit)
    | _ => some (ds, rest)

/-- First match of the regex `f\/(\d+\.?\d*)|(\d+\.?\d*)` (extractFNumber):
the captured numeric group. -/
def scanFNumber : List Char → Option String
  | [] => none
  | c :: rest =>
    match (if c == 'f' then
             match rest with
             | '/' :: r2 => (matchNumLoose r2).map (fun p => p.1)
             | _ => none
           else none) with
    | some g => some (String.mk g)
    | none =>
      match matchNumLoose (c :: rest) with
      | some (g, _) => some (String.mk g)
      | none => scanFNumber rest

/-- First match of the regex `(\d+\.?\d*)\s*mm|(\d+\.?\d*)` (extractFocalLength):
the captured numeric group. -/
def scanFocal : List Char → Option String
  | [] => none
  | c :: rest =>
    match (match matchNumLoose (c :: rest) with
           | some (g, r1) =>
             match expectStr ['m', 'm'] (skipJsWs r1) with
             | some _ => some g
             | none => none
           | none => none) with
    | some g => some (String.mk g)
    | none =>
      match matchNumLoose (c :: rest) with
      | some (g, _) => some (String.mk g)
      | none => scanFocal rest

/-- The candidate keys of the exposure field. -/
def exposureKeys : List String :=
  ["ExposureTime", "ShutterSpeedValue", "Exposure", "ShutterSpeed",
   "ExpTime", "Shutter", "ExposureValue"]

/-- extractExposureTime (exifUtils.ts): pass a fraction through, reformat a
decimal in (0,1) as a fraction, otherwise pass the raw value through. -/
def extractExposureTime (tags : JVal) : Option JVal :=
  match findValue tags exposureKeys with
  | none => none
  | some v =>
    if !truthy v then none
    else if (match v with | .str s => s.contains '/' | _ => false) then some v
    else
      match parseFloatJV v with
      | some q =>
        if 0 < q ∧ q < 1 then some (.str ("1/" ++ toString (jsRound (1 / q)))) else some v
      | none => some v

/-- The candidate keys of the f-number field. -/
def fNumberKeys : List String :=
  ["FNumber", "ApertureValue", "Aperture", "F-Stop",
   "Fnumber", "Aperture Value", "FNumber Value", "F-number"]

/-- extractFNumber (exifUtils.ts). -/
def extractFNumber (tags : JVal) : Option ℚ :=
  match findValue tags fNumberKeys with
  | none => none
  | some v =>
    if !truthy v then none
    else
      let s := jvalToString v
      match scanFNumber s.data with
      | some g => parseFloatJS g
      | none => parseFloatJS s

/-- The candidate keys of the ISO field. -/
def isoKeys : List String :=
  ["ISOSpeedRatings", "ISO", "ISOSpeed", "BaseISO",
   "ISO Value", "ISOValue", "ISO Speed", "SensitivityType"]

/-- extractISO (exifUtils.ts): first run of digits, else direct parseInt. -/
def extractISO (tags : JVal) : Option ℤ :=
  match findValue tags isoKeys with
  | none => none
  | some v =>
    if !truthy v then none
    else
      let s := jvalToString v
      match digitRun s with
      | some ds => parseIntJS ds
      | none => parseIntJS s

/-- The candidate keys of the focal length field. -/
def focalLengthKeys : List String :=
  ["FocalLength", "Focal", "FocalLengthIn35mmFilm",
   "FocalLength35mm", "Focal Length", "Focal Length In 35mm Format"]

/-- extractFocalLength (exifUtils.ts). -/
def extractFocalLength (tags : JVal) : Option ℚ :=
  match findValue tags focalLengthKeys with
  | none => none
  | some v =>
    if !truthy v then none
    else
      let s := jvalToString v
      match scanFocal s.data with
      | some g => parseFloatJS g
      | none => parseFloatJS s

/-- The candidate keys of the orientation field. -/
def orientationKeys : List String :=
  ["Orientation", "ImageOrientation", "Image Orientation"]

/-- extractOrientation (exifUtils.ts). -/
def extractOrientation (tags : JVal) : Option ℤ :=
  match findValue tags orientationKeys with
  | none => none
  | some v =>
    if !truthy v then none
    else
      let s := jvalToString v
      match digitRun s with
      | some ds => parseIntJS ds
      | none => parseIntJS s

/-- The width candidate keys of extractResolution. -/
def widthKeys : List String :=
  ["XResolution", "ImageWidth", "ExifImageWidth", "Width"]

/-- The height candidate keys of extractResolution. -/
def heightKeys : List String :=
  ["YResolution", "ImageHeight", "ExifImageHeight", "Height"]

/-- extractResolution (exifUtils.ts): both halves through a digit-run match,
falling back to parseInt on both, emitted as "w x h". -/
def extractResolution (tags : JVal) : Option String :=
  match findValue tags widthKeys, findValue tags heightKeys with
  | some x, some y =>
    if truthy x && truthy y then
      let xs := jvalToString x
      let ys := jvalToString y
      match digitRun xs, digitRun ys with
      | some dx, some dy => some (dx ++ " x " ++ dy)
      | _, _ =>
        match parseIntJS xs, parseIntJS ys with
        | some a, some b => some (toString a ++ " x " ++ toString b)
        | _, _ => none
    else none
  | _, _ => none

/-- The canonical output record of extractImageMetadata; every optional field
defaults to absent. -/
structure ImageMetadata where
  fileName : String
  dateTime : Option JVal := none
  make : Option String := none
  model : Option String := none
  exposure : Option JVal := none
  fNumber : Option ℚ := none
  iso : Option ℤ := none
  focalLength : Option ℚ := none
  software : Option JVal := none
  orientation : Option ℤ := none
  resolution : Option String := none
  whiteBalance : Option JVal := none
  flash : Option JVal := none
  lens : Option JVal := none
  gps : Option GpsCoord := none

/-- The candidate keys of the make field. -/
def makeKeys : List String :=
  ["Make", "Manufacturer", "CameraManufacturer", "xmp:Make",
   "Software", "DeviceManufacturer", "MakerNote", "Brand",
   "Producer", "CameraMake", "Vendor"]

/-- The candidate keys of the model field. -/
def modelKeys : List String :=
  ["Model", "CameraModel", "DeviceModel", "xmp:Model",
   "CameraModelName", "CameraType", "HandlerType",
   "DeviceName", "PhoneModel"]

/-- The candidate keys of the date-time field. -/
def dateTimeKeys : List String :=
  ["DateTimeOriginal", "DateTime", "CreateDate", "ModifyDate",
   "xmp:CreateDate", "MediaCreateDate", "DateCreated", "ContentCreateDate"]

/-- The candidate keys of the software field. -/
def softwareKeys : List String := ["Software", "ProcessingSoftware", "Creator"]

/-- The candidate keys of the white balance field. -/
def whiteBalanceKeys : List String := ["WhiteBalance", "WB"]

/-- The candidate keys of the flash field. -/
def flashKeys : List String := ["Flash", "FlashMode", "FlashFired"]

/-- The candidate keys of the lens field. -/
def lensKeys : List String := ["LensModel", "Lens", "LensInfo", "LensMake"]

/-- `findValue(...)?.trim()`: absent passes through, a string is trimmed, and
a non-string resolved value raises a TypeError (modelled by `error`), which
the caller's catch turns into the fallback record. -/
def optTrimStr : Option JVal → Except Unit (Option String)
  | none => .ok none
  | some (.str s) => .ok (some s.trim)
  | some _ => .error ()

/-- The model-deduplication ternary of extractImageMetadata:
`model && make ? (model.toLowerCase().includes(make.toLowerCase()) ? model
: make + " " + model) : model`. -/
def cleanModel (model make : Option String) : Option String :=
  match model, make with
  | some m, some k =>
    if !m.isEmpty && !k.isEmpty then
      if strIncludes (strToLower m) (strToLower k) then some m else some (k ++ " " ++ m)
    else model
  | _, _ => model

/-- The successful-decode body of extractImageMetadata: resolve every field
of the canonical record from the tag bag.  A TypeError raised by `trim` on a
non-string make or model is caught by the surrounding try/catch and produces
the fallback record. -/
def buildMetadata (tags : JVal) (fileName : String) : ImageMetadata :=
  match optTrimStr (findValue tags makeKeys), optTrimStr (findValue tags modelKeys) with
  | .ok make, .ok model =>
    { fileName := fileName
      dateTime := findValue tags dateTimeKeys
      make := make
      model := cleanModel model make
      exposure := extractExposureTime tags
      fNumber := extractFNumber tags
      iso := extractISO tags
      focalLength := extractFocalLength tags
      software := findValue tags softwareKeys
      orientation := extractOrientation tags
      resolution := extractResolution tags
      whiteBalance := findValue tags whiteBalanceKeys
      flash := findValue tags flashKeys
      lens := findValue tags lensKeys
      gps := findGpsData tags }
  | _, _ => { fileName := fileName }

/-- Outcome of the raced ExifReader decode: an exception or timeout (the
race's catch returns an empty object), or a decoded tag object. -/
inductive DecodeOutcome where
  | failed
  | ok (fields : JObj)

/-- Outcome of reading the file bytes: the FileReader error path (or a null
read result), or a read that reached the decode stage. -/
inductive FileReadOutcome where
  | failure
  | success (decode : DecodeOutcome)

/-- extractImageMetadata (exifUtils.ts): the per-file entry point.  Read
failure, decode failure/timeout and an empty tag object all resolve to the
bare fallback record; otherwise the record is built from the tag bag. -/
def extractImageMetadata (r : FileReadOutcome) (fileName : String) : ImageMetadata :=
  match r with
  | .failure => { fileName := fileName }
  | .success d =>
    let fields : JObj :=
      match d with
      | .failed => .nil
      | .ok fs => fs
    if fields.isEmpty then { fileName := fileName }
    else buildMetadata (.obj fields) fileName

/-- No decimal digit occurs in the character list. -/
def NoDigit (l : List Char) : Prop := ∀ c ∈ l, c.isDigit = false

/-- No coordinate character (digit, point, minus) occurs in the list. -/
def NoCoordChar (l : List Char) : Prop := ∀ c ∈ l, isCoordChar c = false

theorem NoCoordChar.noDigit {l : List Char} (h : NoCoordChar l) : NoDigit l := by
  intro c hc
  have h2 := h c hc
  simp only [isCoordChar, Bool.or_eq_false_iff] at h2
  exact h2.1.1

theorem NoDigit.dropWhile {l : List Char} (p : Char → Bool) (h : NoDigit l) :
    NoDigit (l.dropWhile p) := by
  intro c hc
  exact h c ((List.dropWhile_suffix p).subset hc)

theorem NoDigit.tail {c : Char} {l : List Char} (h : NoDigit (c :: l)) : NoDigit l := by
  intro x hx
  exact h x (List.mem_cons_of_mem c hx)

theorem NoDigit.takeWhile_digit_nil {l : List Char} (h : NoDigit l) :
    l.takeWhile Char.isDigit = [] := by
  cases l with
  | nil => rfl
  | cons c t =>
    rw [List.takeWhile_cons, h c (List.mem_cons_self c t)]
    simp

theorem NoDigit.readSign_snd {l : List Char} (h : NoDigit l) : NoDigit (readSign l).2 := by
  cases l with
  | nil => intro c hc; cases hc
  | cons c t =>
    simp only [readSign]
    split
    · exact h.tail
    · split
      · exact h.tail
      · exact h

theorem NoDigit.readSignInt_snd {l : List Char} (h : NoDigit l) :
    NoDigit (readSignInt l).2 := by
  cases l with
  | nil => intro c hc; cases hc
  | cons c t =>
    simp only [readSignInt]
    split
    · exact h.tail
    · split
      · exact h.tail
      · exact h

/-- parseFloat yields NaN on a string with no digit. -/
theorem parseFloatJS_noDigit {s : String} (h : NoDigit s.data) : parseFloatJS s = none := by
  unfold parseFloatJS
  rcases hr : readSign (s.data.dropWhile jsWhitespace) with ⟨sgn, cs1⟩
  have h1 : NoDigit (s.data.dropWhile jsWhitespace) := h.dropWhile jsWhitespace
  have h2 : NoDigit cs1 := by
    have h2a := h1.readSign_snd
    rw [hr] at h2a
    exact h2a
  have h3 : NoDigit (cs1.dropWhile Char.isDigit) := h2.dropWhile Char.isDigit
  simp only [hr]
  cases hd : cs1.dropWhile Char.isDigit with
  | nil => simp [hd, h2.takeWhile_digit_nil]
  | cons c rest =>
    have h4 : NoDigit rest := by
      rw [hd] at h3
      exact h3.tail
    by_cases hc : c = '.'
    · simp [hd, hc, h2.takeWhile_digit_nil, h4.takeWhile_digit_nil]
    · simp [hd, hc, h2.takeWhile_digit_nil]

/-- parseInt yields NaN on a string with no digit. -/
theorem parseIntJS_noDigit {s : String} (h : NoDigit s.data) : parseIntJS s = none := by
  unfold parseIntJS
  rcases hr : readSignInt (s.data.dropWhile jsWhitespace) with ⟨sgn, cs1⟩
  have h1 : NoDigit (s.data.dropWhile jsWhitespace) := h.dropWhile jsWhitespace
  have h2 : NoDigit cs1 := by
    have h2a := h1.readSignInt_snd
    rw [hr] at h2a
    exact h2a
  have hdec : parseIntDec sgn cs1 = none := by
    unfold parseIntDec
    simp [h2.takeWhile_digit_nil]
  simp only [hr]
  cases cs1 with
  | nil => simpa using hdec
  | cons c t =>
    cases t with
    | nil => simpa using hdec
    | cons x rest =>
      have hc : c.isDigit = false := h2 c (List.mem_cons_self c (x :: rest))
      have hc0 : (c == '0') = false := by
        cases hcc : c == '0' with
        | false => rfl
        | true =>
          rw [eq_of_beq hcc] at hc
          exact absurd hc (by decide)
      simpa [hc0] using hdec

/-- matchNumber fails when the head is not a digit. -/
theorem matchNumber_noDigit {l : List Char} (h : NoDigit l) : matchNumber l = none := by
  unfold matchNumber
  rw [h.takeWhile_digit_nil]
  simp

theorem tryDMS1At_noDigit {l : List Char} (h : NoDigit l) : tryDMS1At l = none := by
  unfold tryDMS1At
  rw [matchNumber_noDigit h]

theorem tryDMS2At_noDigit {l : List Char} (h : NoDigit l) : tryDMS2At l = none := by
  unfold tryDMS2At
  rw [matchNumber_noDigit h]

theorem scanDMS_noDigit {tryAt : List Char → Option (ℚ × ℚ × ℚ)}
    (htry : ∀ l', NoDigit l' → tryAt l' = none) :
    ∀ l, NoDigit l → scanDMS tryAt l = none := by
  intro l
  induction l with
  | nil => intro _; rfl
  | cons c t ih =>
    intro h
    unfold scanDMS
    rw [htry (c :: t) h]
    exact ih h.tail

theorem splitRunsAux_noCoordChar :
    ∀ l, NoCoordChar l → splitRunsAux l [] = [] := by
  intro l
  induction l with
  | nil => intro _; rfl
  | cons c t ih =>
    intro h
    unfold splitRunsAux
    rw [h c (List.mem_cons_self c t)]
    simp only [List.isEmpty_nil, if_true]
    exact ih (fun x hx => h x (List.mem_cons_of_mem c hx))

theorem convertCoordinates_noCoordChar {s : String} (h : NoCoordChar s.data) :
    convertCoordinates s = some 0 := by
  unfold convertCoordinates
  by_cases he : s.isEmpty = true
  · simp [he]
  · have hd : NoDigit s.data := h.noDigit
    simp [he, parseFloatJS_noDigit hd,
          scanDMS_noDigit (fun _ h' => tryDMS1At_noDigit h') s.data hd,
          scanDMS_noDigit (fun _ h' => tryDMS2At_noDigit h') s.data hd,
          splitRuns, splitRunsAux_noCoordChar s.data h]

theorem processGpsValue_str (s : String) : processGpsValue (.str s) = convertCoordinates s := by
  by_cases he : s.isEmpty = true
  · rw [(String.isEmpty_iff s).mp he]
    rfl
  · have hf : s.isEmpty = false := by
      cases hb : s.isEmpty
      · rfl
      · exact absurd hb he
    unfold processGpsValue
    simp [truthy, hf, getField]

/-- C10: convertCoordinates is total and never throws; it returns 0 for the
empty string and for every string containing no digit, point or minus
character, so in the standard-EXIF GPS strategy an unparseable raw
coordinate string degrades to the component value 0 (processGpsValue on a
direct string is exactly convertCoordinates). -/
theorem convertCoordinates_total_zero_fallback :
    (convertCoordinates "" = some 0) ∧
    (∀ s : String, (∀ c ∈ s.data, isCoordChar c = false) → convertCoordinates s = some 0) ∧
    (∀ s : String, processGpsValue (.str s) = convertCoordinates s) :=
  ⟨rfl,
   fun _ h => convertCoordinates_noCoordChar h,
   processGpsValue_str⟩

/-- Witness for C10 at the concrete strings "abc" and "N/A". -/
theorem convertCoordinates_total_zero_fallback_witness :
    convertCoordinates "abc" = some 0 ∧ processGpsValue (.str "N/A") = convertCoordinates "N/A" :=
  ⟨convertCoordinates_total_zero_fallback.2.1 "abc" (by decide),
   convertCoordinates_total_zero_fallback.2.2 "N/A"⟩

/-- A tag bag whose only useful data sits at the deep vendor path "Apple":
no candidate key matches at the root or in any sub-namespace. -/
def deepPathBag : JVal := .obj (.ofList [("Apple", .obj (.ofList [("Make", .str "Apple")]))])

/-- C3: searchInNestedPaths does find the value at the deep vendor path, but
findValue discards the call's result and returns undefined, so the deep-path
phase can never produce a value. -/
theorem findValue_discards_nested_path_result :
    searchInNestedPaths deepPathBag ["Make"] = some (.str "Apple") ∧
    findValue deepPathBag ["Make"] = none :=
  ⟨by with_unfolding_all rfl, rfl⟩

/-- C5: file-read failure, decode failure or timeout, and an empty decoded
tag object each resolve to exactly the fallback record carrying only the
file name; every other field is absent. -/
theorem extractImageMetadata_failure_fallback :
    ∀ (name : String) (r : FileReadOutcome),
      (r = .failure ∨ r = .success .failed ∨ r = .success (.ok .nil)) →
      extractImageMetadata r name =
        { fileName := name, dateTime := none, make := none, model := none, exposure := none,
          fNumber := none, iso := none, focalLength := none, software := none,
          orientation := none, resolution := none, whiteBalance := none, flash := none,
          lens := none, gps := none } := by
  intro name r h
  rcases h with rfl | rfl | rfl <;> rfl

/-- Witness for C5 at a concrete file name, for each of the three failure
shapes. -/
theorem extractImageMetadata_failure_fallback_witness :
    extractImageMetadata .failure "photo.jpg" = { fileName := "photo.jpg" } ∧
    extractImageMetadata (.success .failed) "photo.jpg" = { fileName := "photo.jpg" } ∧
    extractImageMetadata (.success (.ok .nil)) "photo.jpg" = { fileName := "photo.jpg" } :=
  ⟨extractImageMetadata_failure_fallback "photo.jpg" .failure (Or.inl rfl),
   extractImageMetadata_failure_fallback "photo.jpg" (.success .failed) (Or.inr (Or.inl rfl)),
   extractImageMetadata_failure_fallback "photo.jpg" (.success (.ok .nil)) (Or.inr (Or.inr rfl))⟩

/-- C9: resolving a tag bag into a metadata record is deterministic: equal
bags resolve to identical records (the resolution pipeline is a pure
function of the bag and the file name). -/
theorem buildMetadata_deterministic :
    ∀ (t1 t2 : JVal) (name : String), t1 = t2 → buildMetadata t1 name = buildMetadata t2 name := by
  intro t1 t2 name h
  rw [h]

/-- Witness for C9 at a concrete one-tag bag. -/
theorem buildMetadata_deterministic_witness :
    buildMetadata (.obj (.cons "Make" (.str "Apple") .nil)) "a.jpg" =
      buildMetadata (.obj (.cons "Make" (.str "Apple") .nil)) "a.jpg" :=
  buildMetadata_deterministic _ _ "a.jpg" rfl

theorem isValidCoordinate_range {a b : ℚ} (h : isValidCoordinate a b = true) :
    -90 ≤ a ∧ a ≤ 90 ∧ -180 ≤ b ∧ b ≤ 180 ∧ ¬(a = 0 ∧ b = 0) := by
  unfold isValidCoordinate at h
  split_ifs at h with h1 h2 h3
  push_neg at h1 h2
  refine ⟨by linarith [h1.1], by linarith [h1.2], by linarith [h2.1], by linarith [h2.2], h3⟩

theorem acceptIfValid_valid {lat lon : Option ℚ} {c : GpsCoord}
    (h : acceptIfValid lat lon = some c) :
    isValidCoordinate c.latitude c.longitude = true := by
  unfold acceptIfValid at h
  match lat, lon with
  | some a, some b =>
    simp only at h
    split at h
    · cases h
      assumption
    · cases h
  | some _, none => cases h
  | none, some _ => cases h
  | none, none => cases h

theorem gpsObjAttempt_valid {g : JVal} {c : GpsCoord}
    (h : gpsObjAttempt g = some c) :
    isValidCoordinate c.latitude c.longitude = true := by
  unfold gpsObjAttempt at h
  repeat' split at h
  all_goals (try cases h)
  all_goals exact acceptIfValid_valid h

theorem firstSome_attempt_valid :
    ∀ (l : List JVal) (c : GpsCoord),
      firstSome (l.map gpsObjAttempt) = some c →
      isValidCoordinate c.latitude c.longitude = true := by
  intro l
  induction l with
  | nil => intro c h; cases h
  | cons g t ih =>
    intro c h
    simp only [List.map_cons] at h
    cases hg : gpsObjAttempt g with
    | some r =>
      rw [hg] at h
      unfold firstSome at h
      cases h
      exact gpsObjAttempt_valid hg
    | none =>
      rw [hg] at h
      unfold firstSome at h
      exact ih c h

theorem gpsObjectsScan_valid {tags : JVal} {c : GpsCoord}
    (h : gpsObjectsScan tags = some c) :
    isValidCoordinate c.latitude c.longitude = true :=
  firstSome_attempt_valid (gpsObjectsList tags) c h

theorem gpsLocationArray_valid {tags : JVal} {c : GpsCoord}
    (h : gpsLocationArray tags = some c) :
    isValidCoordinate c.latitude c.longitude = true := by
  unfold gpsLocationArray at h
  repeat' split at h
  all_goals (try cases h)
  all_goals exact acceptIfValid_valid h

/-- An apple vendor Location block carrying an out-of-range coordinate. -/
def vendor999Bag : JVal := .obj (.ofList
  [("apple", .obj (.ofList [("Location", .obj (.ofList
      [("Latitude", .num 999), ("Longitude", .num 999)]))]))])

/-- C2 counterexample: the vendor Location strategy checks only for NaN, so
findGpsData returns a pair whose latitude 999 violates the validity gate. -/
theorem gpsValidityGate_counterexample :
    findGpsData vendor999Bag = some ⟨999, 999⟩ ∧ ¬((999 : ℚ) ≤ 90) :=
  ⟨by with_unfolding_all rfl, by norm_num⟩

/-- C2 (amended): every pair produced by the generic-container strategy or
the coordinates-array strategy passes the validity gate (finite components,
latitude in [-90,90], longitude in [-180,180]); the vendor/XMP Location and
standard root-tag strategies guarantee only that both components parse as
numbers. -/
theorem gpsValidityGate_strategies45 :
    ∀ (tags : JVal) (c : GpsCoord),
      gpsObjectsScan tags = some c ∨ gpsLocationArray tags = some c →
      -90 ≤ c.latitude ∧ c.latitude ≤ 90 ∧ -180 ≤ c.longitude ∧ c.longitude ≤ 180 := by
  intro tags c h
  have hv : isValidCoordinate c.latitude c.longitude = true := by
    rcases h with h | h
    · exact gpsObjectsScan_valid h
    · exact gpsLocationArray_valid h
  have hr := isValidCoordinate_range hv
  exact ⟨hr.1, hr.2.1, hr.2.2.1, hr.2.2.2.1⟩

/-- A generic GPS container with plain in-range numeric components. -/
def gpsObjectsWitnessBag : JVal := .obj (.ofList
  [("GPS", .obj (.ofList [("GPSLatitude", .num 40), ("GPSLongitude", .num 50)]))])

/-- Witness for C2 at a concrete generic-container bag. -/
theorem gpsValidityGate_strategies45_witness :
    -90 ≤ (GpsCoord.mk 40 50).latitude ∧ (GpsCoord.mk 40 50).latitude ≤ 90 ∧
    -180 ≤ (GpsCoord.mk 40 50).longitude ∧ (GpsCoord.mk 40 50).longitude ≤ 180 :=
  gpsValidityGate_strategies45 gpsObjectsWitnessBag ⟨40, 50⟩ (Or.inl (by with_unfolding_all rfl))

/-- An apple vendor Location block carrying the (0,0) sentinel and no
standard GPS tags. -/
def vendorZeroBag : JVal := .obj (.ofList
  [("apple", .obj (.ofList [("Location", .obj (.ofList
      [("Latitude", .num 0), ("Longitude", .num 0)]))]))])

/-- C4 counterexample: (0,0) produced by the vendor Location strategy (not
the explicit standard tags, which are absent) is accepted, not rejected. -/
theorem gpsZeroSentinel_counterexample :
    getField vendorZeroBag "GPSLatitude" = none ∧
    gpsVendorXmp vendorZeroBag = some ⟨0, 0⟩ ∧
    findGpsData vendorZeroBag = some ⟨0, 0⟩ :=
  ⟨rfl, by with_unfolding_all rfl, by with_unfolding_all rfl⟩

/-- Explicit standard root GPS tags resolving to the (0,0) pair. -/
def stdZeroBag : JVal := .obj (.ofList
  [("GPSLatitude", .str "0"), ("GPSLongitude", .str "0")])

/-- C4 (amended): the (0,0) sentinel is rejected by the strategies that run
through isValidCoordinate (the generic-container and coordinates-array
strategies), and it is accepted when produced by the explicit standard
GPSLatitude/GPSLongitude tags; the vendor/XMP Location strategies also
accept it. -/
theorem gpsZeroSentinel_policy :
    (∀ (tags : JVal) (c : GpsCoord),
        gpsObjectsScan tags = some c ∨ gpsLocationArray tags = some c →
        ¬(c.latitude = 0 ∧ c.longitude = 0)) ∧
    findGpsData stdZeroBag = some ⟨0, 0⟩ := by
  constructor
  · intro tags c h
    have hv : isValidCoordinate c.latitude c.longitude = true := by
      rcases h with h | h
      · exact gpsObjectsScan_valid h
      · exact gpsLocationArray_valid h
    exact (isValidCoordinate_range hv).2.2.2.2
  · with_unfolding_all rfl

/-- A generic lowercase gps container with in-range numeric components. -/
def gpsZeroWitnessBag : JVal := .obj (.ofList
  [("gps", .obj (.ofList [("Latitude", .num 40), ("Longitude", .num 50)]))])

/-- Witness for C4 at a concrete generic-container bag. -/
theorem gpsZeroSentinel_policy_witness :
    ¬((GpsCoord.mk 40 50).latitude = 0 ∧ (GpsCoord.mk 40 50).longitude = 0) :=
  gpsZeroSentinel_policy.1 gpsZeroWitnessBag ⟨40, 50⟩ (Or.inl (by with_unfolding_all rfl))

/-- Standard root GPS tags with an already-negative raw latitude and the
southern/western reference letters. -/
def rawNegBag : JVal := .obj (.ofList
  [("GPSLatitude", .num (-10)),
   ("GPSLatitudeRef", .obj (.ofList [("value", .str "S")])),
   ("GPSLongitude", .num 20),
   ("GPSLongitudeRef", .obj (.ofList [("value", .str "W")]))])

/-- C1 counterexample: with GPSLatitudeRef = S and a raw latitude resolving
to -10, the standard-EXIF strategy returns latitude +10 (the reference
negates instead of forcing a negative sign), so the resolved latitude is not
negative. -/
theorem gpsRefSouth_counterexample :
    gpsStdRefIs rawNegBag "GPSLatitudeRef" "S" = true ∧
    gpsStdRefIs rawNegBag "GPSLongitudeRef" "W" = true ∧
    processGpsValue (.num (-10)) = some (-10) ∧
    findGpsData rawNegBag = some ⟨10, -20⟩ ∧
    ¬((10 : ℚ) < 0) :=
  ⟨rfl, rfl, rfl, rfl, by norm_num⟩

/-- C1 (amended): in the standard-EXIF root-tag strategy the S/W reference
letter negates the resolved raw component (multiplication by -1) rather
than setting the sign absolutely, so the resolved latitude/longitude is the
negation of the raw value: negative exactly when the raw value is positive. -/
theorem gpsDirectTags_ref_negates :
    ∀ (tags glat glon : JVal) (la lo : ℚ),
      getField tags "GPSLatitude" = some glat →
      getField tags "GPSLongitude" = some glon →
      truthy glat = true → truthy glon = true →
      processGpsValue glat = some la →
      processGpsValue glon = some lo →
      gpsStdRefIs tags "GPSLatitudeRef" "S" = true →
      gpsStdRefIs tags "GPSLongitudeRef" "W" = true →
      gpsDirectTags tags = some ⟨-la, -lo⟩ := by
  intro tags glat glon la lo h1 h2 h3 h4 h5 h6 h7 h8
  unfold gpsDirectTags
  simp [h1, h2, h3, h4, h5, h6, h7, h8]

/-- Standard root GPS tags with positive raw components and the
southern/western reference letters. -/
def rawPosBag : JVal := .obj (.ofList
  [("GPSLatitude", .num 10),
   ("GPSLatitudeRef", .obj (.ofList [("value", .str "S")])),
   ("GPSLongitude", .num 20),
   ("GPSLongitudeRef", .obj (.ofList [("value", .str "W")]))])

/-- Witness for C1 at a concrete standard-EXIF bag with positive raws. -/
theorem gpsDirectTags_ref_negates_witness :
    gpsDirectTags rawPosBag = some ⟨-10, -20⟩ :=
  gpsDirectTags_ref_negates rawPosBag (.num 10) (.num 20) 10 20
    rfl rfl rfl rfl rfl rfl rfl rfl

theorem isEmpty_false_of_ne {s : String} (h : s ≠ "") : s.isEmpty = false := by
  cases hb : s.isEmpty
  · rfl
  · exact absurd ((String.isEmpty_iff s).mp hb) h

/-- A bag whose model tag resolves to the empty string while make resolves
normally. -/
def emptyModelBag : JVal := .obj (.ofList
  [("Make", .obj (.ofList [("description", .str "Apple")])),
   ("Model", .obj (.ofList [("value", .str "")]))])

/-- C6 counterexample: make and model both resolve ("Apple" and ""), ""
does not contain "Apple", yet the output model is "" and not the
concatenation "Apple " -- the empty model is falsy, so the dedup ternary
passes it through. -/
theorem cleanModel_empty_counterexample :
    findValue emptyModelBag makeKeys = some (.str "Apple") ∧
    findValue emptyModelBag modelKeys = some (.str "") ∧
    strIncludes (strToLower "") (strToLower "Apple") = false ∧
    (buildMetadata emptyModelBag "f").model = some "" ∧
    ("" : String) ≠ "Apple" ++ " " ++ "" :=
  ⟨rfl, rfl, by with_unfolding_all rfl, by with_unfolding_all rfl, by decide⟩

/-- C6 (amended): when make and model both resolve to strings with nonempty
trimmed text, the output model is the model unchanged if it contains the
make case-insensitively and the concatenation "make model" otherwise; when
make is absent, or either trimmed text is empty, the (trimmed) model passes
through unmodified. -/
theorem buildMetadata_model_dedup :
    (∀ (tags : JVal) (name mk md : String),
        findValue tags makeKeys = some (.str mk) →
        findValue tags modelKeys = some (.str md) →
        mk.trim ≠ "" → md.trim ≠ "" →
        (buildMetadata tags name).model =
          some (if strIncludes (strToLower md.trim) (strToLower mk.trim) then md.trim
                else mk.trim ++ " " ++ md.trim)) ∧
    (∀ (tags : JVal) (name md : String),
        findValue tags makeKeys = none →
        findValue tags modelKeys = some (.str md) →
        (buildMetadata tags name).model = some md.trim) ∧
    (∀ (tags : JVal) (name mk md : String),
        findValue tags makeKeys = some (.str mk) →
        findValue tags modelKeys = some (.str md) →
        mk.trim = "" ∨ md.trim = "" →
        (buildMetadata tags name).model = some md.trim) := by
  refine ⟨?_, ?_, ?_⟩
  · intro tags name mk md h1 h2 h3 h4
    simp only [buildMetadata, h1, h2, optTrimStr, cleanModel,
               isEmpty_false_of_ne h3, isEmpty_false_of_ne h4,
               Bool.not_false, Bool.and_self, if_true]
    split <;> rfl
  · intro tags name md h1 h2
    simp [buildMetadata, h1, h2, optTrimStr, cleanModel]
  · intro tags name mk md h1 h2 h5
    rcases h5 with h5 | h5
    · have hmk : mk.trim.isEmpty = true := by rw [h5]; rfl
      simp [buildMetadata, h1, h2, optTrimStr, cleanModel, hmk]
    · have hmd : md.trim.isEmpty = true := by rw [h5]; rfl
      simp [buildMetadata, h1, h2, optTrimStr, cleanModel, hmd]

/-- A bag resolving make "Apple" and model "iPhone 13". -/
def dedupWitnessBag : JVal := .obj (.ofList
  [("Make", .obj (.ofList [("description", .str "Apple")])),
   ("Model", .obj (.ofList [("description", .str "iPhone 13")]))])

/-- Witness for C6: make "Apple" and model "iPhone 13" produce the
concatenated model "Apple iPhone 13". -/
theorem buildMetadata_model_dedup_witness :
    (buildMetadata dedupWitnessBag "f").model = some "Apple iPhone 13" := by
  have h := buildMetadata_model_dedup.1 dedupWitnessBag "f" "Apple" "iPhone 13"
    rfl rfl (by with_unfolding_all decide) (by with_unfolding_all decide)
  rw [h]
  with_unfolding_all rfl

/-- A bag whose exposure tag resolves to the empty string. -/
def emptyExposureBag : JVal := .obj (.ofList
  [("ExposureTime", .obj (.ofList [("value", .str "")]))])

/-- C7 counterexample: the exposure raw value resolves (to the empty
string), yet the exposure field is absent -- the empty string is falsy, so
the extractor returns undefined although the raw value is present. -/
theorem extractExposureTime_empty_counterexample :
    findValue emptyExposureBag exposureKeys = some (.str "") ∧
    extractExposureTime emptyExposureBag = none :=
  ⟨rfl, rfl⟩

/-- C7 (amended): for a nonempty resolved exposure string, a value
containing a slash passes through unchanged; otherwise a value parsing to a
decimal strictly between 0 and 1 is reformatted as one over the rounded
reciprocal, and anything else passes through.  The field is absent exactly
when the raw value is absent or resolves to the (falsy) empty string. -/
theorem extractExposureTime_spec :
    (∀ (tags : JVal) (s : String),
        findValue tags exposureKeys = some (.str s) → s ≠ "" →
        extractExposureTime tags =
          some (.str (if s.contains '/' then s
            else
              match parseFloatJS s with
              | some q => if 0 < q ∧ q < 1 then "1/" ++ toString (jsRound (1 / q)) else s
              | none => s))) ∧
    (∀ tags : JVal, findValue tags exposureKeys = none → extractExposureTime tags = none) ∧
    (∀ tags : JVal, findValue tags exposureKeys = some (.str "") →
        extractExposureTime tags = none) := by
  refine ⟨?_, ?_, ?_⟩
  · intro tags s h1 h2
    unfold extractExposureTime
    rw [h1]
    simp only [truthy, isEmpty_false_of_ne h2, Bool.not_false, Bool.not_true, if_false]
    simp only [parseFloatJV, jvalToString]
    by_cases hc : s.contains '/' = true
    · simp [hc]
    · cases hp : parseFloatJS s with
      | none => simp [hc, hp]
      | some q =>
        by_cases hq : 0 < q ∧ q < 1
        · simp [hc, hp, hq]
        · simp [hc, hp, hq]
  · intro tags h1
    unfold extractExposureTime
    rw [h1]
  · intro tags h1
    unfold extractExposureTime
    rw [h1]
    rfl

/-- A bag whose exposure tag resolves to the decimal string "0.002". -/
def exposure002Bag : JVal := .obj (.ofList
  [("ExposureTime", .obj (.ofList [("description", .str "0.002")]))])

/-- Witness for C7: the decimal exposure 0.002 is reformatted as 1/500. -/
theorem extractExposureTime_spec_witness :
    extractExposureTime exposure002Bag = some (.str "1/500") := by
  have h := extractExposureTime_spec.1 exposure002Bag "0.002" rfl (by decide)
  rw [h]
  with_unfolding_all rfl

theorem digitRun_none_noDigit {s : String} (h : digitRun s = none) : NoDigit s.data := by
  unfold digitRun at h
  cases hd : s.data.dropWhile (fun c => !c.isDigit) with
  | nil =>
    intro c hc
    have h2 := List.dropWhile_eq_nil_iff.mp hd c hc
    simpa using h2
  | cons a t =>
    rw [hd] at h
    cases h

/-- C8: the resolution field is emitted exactly when both the width and the
height candidate resolve to truthy values whose string forms each contain a
run of digits, and then it is the first digit run of each half joined by
" x ".  (The direct parseInt fallback of the source can never fire on its
own: a string rejected by the digit-run regex contains no digit, so
parseInt also fails on it, and either half failing leaves the field
absent.) -/
theorem extractResolution_characterization :
    ∀ (tags : JVal) (v : String),
      extractResolution tags = some v ↔
        ∃ x y dx dy, findValue tags widthKeys = some x ∧ truthy x = true ∧
          findValue tags heightKeys = some y ∧ truthy y = true ∧
          digitRun (jvalToString x) = some dx ∧ digitRun (jvalToString y) = some dy ∧
          v = dx ++ " x " ++ dy := by
  intro tags v
  constructor
  · intro h
    unfold extractResolution at h
    cases hx : findValue tags widthKeys with
    | none => rw [hx] at h; cases h
    | some x =>
      cases hy : findValue tags heightKeys with
      | none => rw [hx, hy] at h; cases h
      | some y =>
        rw [hx, hy] at h
        by_cases htx : truthy x = true
        · by_cases hty : truthy y = true
          · simp only [htx, hty, Bool.and_self, if_true] at h
            cases hdx : digitRun (jvalToString x) with
            | none =>
              have hpx : parseIntJS (jvalToString x) = none :=
                parseIntJS_noDigit (digitRun_none_noDigit hdx)
              rw [hdx, hpx] at h
              cases hdy : digitRun (jvalToString y) <;> rw [hdy] at h <;> cases h
            | some dx =>
              cases hdy : digitRun (jvalToString y) with
              | none =>
                have hpy : parseIntJS (jvalToString y) = none :=
                  parseIntJS_noDigit (digitRun_none_noDigit hdy)
                rw [hdx, hdy, hpy] at h
                cases hpx : parseIntJS (jvalToString x) <;> rw [hpx] at h <;> cases h
              | some dy =>
                rw [hdx, hdy] at h
                cases h
                exact ⟨x, y, dx, dy, rfl, htx, rfl, hty, hdx, hdy, rfl⟩
          · simp [htx, hty] at h
        · simp [htx] at h
  · rintro ⟨x, y, dx, dy, hx, htx, hy, hty, hdx, hdy, rfl⟩
    unfold extractResolution
    rw [hx, hy]
    simp [htx, hty, hdx, hdy]

/-- A bag with string width and height candidates. -/
def resolutionWitnessBag : JVal := .obj (.ofList
  [("ImageWidth", .obj (.ofList [("value", .str "4032")])),
   ("ImageHeight", .obj (.ofList [("value", .str "3024")]))])

/-- Witness for C8: width "4032" and height "3024" yield "4032 x 3024". -/
theorem extractResolution_characterization_witness :
    extractResolution resolutionWitnessBag = some "4032 x 3024" :=
  (extractResolution_characterization resolutionWitnessBag "4032 x 3024").mpr
    ⟨.str "4032", .str "3024", "4032", "3024", rfl, rfl, rfl, rfl, rfl, rfl, rfl⟩
